import Mathlib

/-!
# Verification of the AI-autoshop call-intake backend

Shallow embedding of the webhook routes (`routes/webhooks.js`) of the
call-intake backend: webhook signature verification, the call-ended
transaction (`processCallEnded`), booking derivation (`createBooking`)
and date/time parsing (`parseDateTime`), together with theorems settling
the specification's claims about them.

JavaScript/SQL conventions modelled explicitly:
* JSON values that the code tests for truthiness are modelled by `JVal`
  (null / string / number / boolean); a schema-typed field is modelled at
  its schema type wrapped in `Option` (absent = `none`), with JS
  truthiness as a separate function.
* SQL `NULL` is `none`; the SQL equality `col = $n` is three-valued, so a
  comparison against `NULL` never selects a row (`sqlEqOpt`).
* Database-generated ids are modelled by a single `nextId` counter.
* A database round trip can fail (constraint violation, connection loss);
  failures are injected by an oracle `Env.failAt` indexed by the number
  of statements already executed in the transaction.
-/

/-- A JavaScript/JSON value, as far as the code inspects one: the code only
ever tests truthiness and calls string methods (`match`, `toLowerCase`),
which throw on non-strings. -/
inductive JVal
  | null
  | str (s : String)
  | num (n : Int)
  | bool (b : Bool)
deriving DecidableEq

/-- JS truthiness of a `JVal` (`null`, `""`, `0`, `false` are falsy). -/
def JVal.truthy : JVal → Bool
  | .null => false
  | .str s => s ≠ ""
  | .num n => n ≠ 0
  | .bool b => b

/-- JS truthiness of an `Option String` field (absent or empty is falsy). -/
def truthyStr : Option String → Bool
  | none => false
  | some s => s ≠ ""

/-- JS `v || d` for a schema-string field `v` with default `d`. -/
def jsOrDefault (v : Option String) (d : String) : String :=
  match v with
  | none => d
  | some s => if s = "" then d else s

/-- A calendar date (the date component of a JS `Date`). -/
structure CalDate where
  year : Nat
  month : Nat
  day : Nat
deriving DecidableEq

/-- Gregorian leap-year rule (JS `Date` calendar). -/
def isLeap (y : Nat) : Bool :=
  (y % 4 == 0 && y % 100 != 0) || y % 400 == 0

/-- Days in a month of the Gregorian calendar. -/
def daysInMonth (y m : Nat) : Nat :=
  if m = 2 then (if isLeap y then 29 else 28)
  else if m = 4 ∨ m = 6 ∨ m = 9 ∨ m = 11 then 30
  else 31

/-- JS `d.setDate(d.getDate() + 1)`: the next calendar day, with month and
year rollover. -/
def nextDay (d : CalDate) : CalDate :=
  if d.day < daysInMonth d.year d.month then ⟨d.year, d.month, d.day + 1⟩
  else if d.month < 12 then ⟨d.year, d.month + 1, 1⟩
  else ⟨d.year + 1, 1, 1⟩

/-- Numeric value of a decimal digit character. -/
def digVal (c : Char) : Nat := c.toNat - 48

/-- The strict ISO test `/^\d{4}-\d{2}-\d{2}$/` of `parseDateTime`, returning
the calendar date carried by the digits when the string matches (the digit
triple is taken as-is, matching `new Date(s)` on valid calendar dates). -/
def isoMatch (s : String) : Option CalDate :=
  match s.data with
  | [y1, y2, y3, y4, '-', m1, m2, '-', d1, d2] =>
    if y1.isDigit && y2.isDigit && y3.isDigit && y4.isDigit &&
       m1.isDigit && m2.isDigit && d1.isDigit && d2.isDigit then
      some ⟨1000 * digVal y1 + 100 * digVal y2 + 10 * digVal y3 + digVal y4,
            10 * digVal m1 + digVal m2,
            10 * digVal d1 + digVal d2⟩
    else none
  | _ => none

/-- JS `\s` on the whitespace characters relevant here. -/
def isJsSpace (c : Char) : Bool :=
  c = ' ' ∨ c = '\t' ∨ c = '\n' ∨ c = '\r'

/-- The trailing `\s*(am|pm)?` of the time regex: skip whitespace greedily,
then capture a case-insensitive `am`/`pm` if present (returned lowercased,
as the code only compares `timeMatch[3].toLowerCase()`). -/
def restAmPm (l : List Char) : Option String :=
  match l.dropWhile isJsSpace with
  | a :: b :: _ =>
    if a.toLower = 'a' && b.toLower = 'm' then some "am"
    else if a.toLower = 'p' && b.toLower = 'm' then some "pm"
    else none
  | _ => none

/-- Attempt of `/(\d{1,2}):(\d{2})\s*(am|pm)?/i` anchored at the head of the
list: the greedy `\d{1,2}` tries two digits first, then one; the mandatory
`:\d{2}` follows; returns (hour digits value, minute digits value, am/pm
capture). -/
def tryTimeAt (l : List Char) : Option (Nat × Nat × Option String) :=
  match l with
  | c1 :: c2 :: c3 :: c4 :: c5 :: rest =>
    if c1.isDigit && c2.isDigit && c3 = ':' && c4.isDigit && c5.isDigit then
      some (10 * digVal c1 + digVal c2, 10 * digVal c4 + digVal c5, restAmPm rest)
    else if c1.isDigit && c2 = ':' && c3.isDigit && c4.isDigit then
      some (digVal c1, 10 * digVal c3 + digVal c4, restAmPm (c5 :: rest))
    else none
  | [c1, c2, c3, c4] =>
    if c1.isDigit && c2 = ':' && c3.isDigit && c4.isDigit then
      some (digVal c1, 10 * digVal c3 + digVal c4, none)
    else none
  | _ => none

/-- Leftmost search of the time regex over the string (JS `String.match`
finds the leftmost match). -/
def timeSearch : List Char → Option (Nat × Nat × Option String)
  | [] => none
  | c :: rest =>
    match tryTimeAt (c :: rest) with
    | some r => some r
    | none => timeSearch rest

/-- The 12-hour → 24-hour adjustment of `parseDateTime`: `pm` adds 12 to
hours below 12, then `am` maps hour 12 to 0. -/
def adjustAmPm (h m : Nat) (ap : Option String) : Nat × Nat :=
  let h1 := if ap = some "pm" ∧ h < 12 then h + 12 else h
  let h2 := if ap = some "am" ∧ h1 = 12 then 0 else h1
  (h2, m)

/-- The time half of `parseDateTime` for a present time string: regex search,
12-hour adjustment, default `(10, 0)` on no match. -/
def timeHM (t : String) : Nat × Nat :=
  match timeSearch t.data with
  | some (h, m, ap) => adjustAmPm h m ap
  | none => (10, 0)

/-- JS `String.prototype.toLowerCase` on the ASCII range, written over the
character list so that it reduces in the kernel. -/
def strToLower (s : String) : String :=
  String.mk (s.data.map Char.toLower)

/-- The date half of `parseDateTime` for a present date string: strict ISO,
else case-insensitive `tomorrow` / `today`, else default to tomorrow. -/
def targetDateOf (today : CalDate) (ds : String) : CalDate :=
  match isoMatch ds with
  | some cd => cd
  | none =>
    if strToLower ds = "tomorrow" then nextDay today
    else if strToLower ds = "today" then today
    else nextDay today

/-- Function `parseDateTime(date, time)` of `routes/webhooks.js`, relative to the
current date `today`. A falsy date returns tomorrow 10:00 before the time
is consulted. A truthy non-string date or time makes `.match` throw; the
surrounding `try/catch` turns any such exception into tomorrow 10:00. -/
def parseDateTime (today : CalDate) (date time : JVal) : CalDate × Nat × Nat :=
  if date.truthy = false then (nextDay today, 10, 0)
  else
    match date with
    | .str ds =>
      let target := targetDateOf today ds
      if time.truthy then
        match time with
        | .str ts => (target, (timeHM ts).1, (timeHM ts).2)
        | _ => (nextDay today, 10, 0)
      else (target, 10, 0)
    | _ => (nextDay today, 10, 0)

example : parseDateTime ⟨2026, 10, 11⟩ (.str "2025-01-30") (.str "2:30 pm") =
    (⟨2025, 1, 30⟩, 14, 30) := by decide

example : parseDateTime ⟨2026, 10, 11⟩ .null .null = (⟨2026, 10, 12⟩, 10, 0) := by decide

example : parseDateTime ⟨2026, 10, 11⟩ (.str "today") (.str "9am") =
    (⟨2026, 10, 11⟩, 10, 0) := by decide

example : parseDateTime ⟨2026, 10, 11⟩ (.str "tomorrow") (.str "14:00") =
    (⟨2026, 10, 12⟩, 14, 0) := by decide

example : parseDateTime ⟨2026, 10, 11⟩ (.str "garbage") (.str "garbage") =
    (⟨2026, 10, 12⟩, 10, 0) := by decide

example : parseDateTime ⟨2026, 12, 31⟩ .null .null = (⟨2027, 1, 1⟩, 10, 0) := by decide

/-! ## Database state and the call-ended transaction -/

/-- Structured data extracted by the AI (`analysis.structuredData`), at the
types declared by the extraction schema in `routes/calls.js`; `none` is an
absent key. `preferred_date` / `preferred_time` are kept as raw JS values
because `parseDateTime` applies string methods to them inside a
`try/catch`. -/
structure StructuredData where
  customer_name : Option String
  customer_phone : Option String
  customer_email : Option String
  vehicle_make : Option String
  vehicle_model : Option String
  vehicle_year : Option Int
  issue_summary : Option String
  issue_category : Option String
  urgency : Option String
  preferred_date : JVal
  preferred_time : JVal
  booking_confirmed : Option Bool
deriving DecidableEq

/-- JS truthiness of the schema-boolean `booking_confirmed` field; also the
value of `structuredData.booking_confirmed || false`. -/
def jsBool (b : Option Bool) : Bool := b.getD false

/-- The guard of step 3 of `processCallEnded`:
`structuredData.booking_confirmed && structuredData.customer_name`. -/
def bookingCond (sd : StructuredData) : Bool :=
  jsBool sd.booking_confirmed && truthyStr sd.customer_name

/-- A row of the `calls` table (the columns the webhook routes touch). -/
structure CallRow where
  id : Nat
  status : String
  ended_at : Option Nat
  duration_seconds : Option Int
  cost_usd : Int
  recording_url : Option String
  transcript : Option String
deriving DecidableEq

/-- A row of the `call_analysis` table as inserted by `processCallEnded`.
The code stores `structuredData.issue_summary` into the `issue_keywords`
column. -/
structure CallAnalysisRow where
  call_id : Nat
  structured_data : StructuredData
  customer_name : Option String
  customer_phone : Option String
  vehicle_make : Option String
  vehicle_model : Option String
  issue_keywords : Option String
  sentiment : String
  booking_created : Bool
deriving DecidableEq

/-- A row of the `customers` table. -/
structure CustomerRow where
  id : Nat
  workshop_id : Nat
  name : Option String
  phone : Option String
  email : Option String
deriving DecidableEq

/-- A row of the `vehicles` table. -/
structure VehicleRow where
  id : Nat
  customer_id : Nat
  make : Option String
  model : Option String
  year : Option Int
deriving DecidableEq

/-- A row of the `bookings` table. -/
structure BookingRow where
  id : Nat
  workshop_id : Nat
  customer_id : Nat
  vehicle_id : Option Nat
  call_id : Nat
  scheduled_at : CalDate × Nat × Nat
  issue_summary : Option String
  issue_category : String
  urgency : String
  status : String
deriving DecidableEq

/-- The database: one list per table, insertion-ordered, plus a counter
modelling database-generated primary keys (`RETURNING id`). -/
structure Db where
  nextId : Nat
  calls : List CallRow
  analyses : List CallAnalysisRow
  customers : List CustomerRow
  vehicles : List VehicleRow
  bookings : List BookingRow
deriving DecidableEq

/-- SQL equality `col = $n` on a nullable column: three-valued, so a
comparison involving `NULL` on either side selects nothing. -/
def sqlEqOpt : Option String → Option String → Bool
  | some a, some b => a == b
  | _, _ => false

/-- The `WHERE workshop_id = $1 AND phone = $2` predicate of the customer
lookup in `createBooking`. -/
def custMatch (workshopId : Nat) (phone : Option String) (c : CustomerRow) : Bool :=
  c.workshop_id == workshopId && sqlEqOpt c.phone phone

/-- Observable events of one call-ended processing run, in execution order:
the SQL statements, the transaction boundary markers, and the outbound
notification POST (which, as an HTTP call, escapes the transaction). -/
inductive Ev
  | txnBegin
  | updateCall (callId : Nat)
  | insertAnalysis (callId : Nat)
  | selectCustomer (workshopId : Nat) (phone : Option String)
  | insertCustomer (id : Nat)
  | insertVehicle (id : Nat)
  | insertBooking (id : Nat)
  | updateAnalysis (callId : Nat)
  | notifyPost (bookingId workshopId customerId : Nat)
      (customerEmail : Option String) (scheduledAt : CalDate × Nat × Nat)
  | notifyFailedSwallowed
  | txnCommit
  | txnRollback
deriving DecidableEq

/-- Transaction-local execution state: the pending database (visible only
inside the transaction until COMMIT), the number of statements executed so
far (feeding the failure oracle), and the event trace. -/
structure TxSt where
  db : Db
  step : Nat
  trace : List Ev
deriving DecidableEq

/-- The execution environment: current wall-clock date and time, a failure
oracle saying whether the n-th SQL statement of the transaction fails
(constraint violation, lost connection, …), and whether the outbound
notification POST fails. -/
structure Env where
  today : CalDate
  now : Nat
  failAt : Nat → Bool
  notifyFails : Bool

/-- One `client.query` round trip inside the transaction: either the oracle
makes it fail — the error aborts the enclosing `try` block, carrying the
state reached so far — or it applies its effect to the pending database,
advances the statement counter and records its event. -/
def txQuery (env : Env) (ev : Ev) (f : Db → α × Db) (st : TxSt) :
    Except (Nat × TxSt) (α × TxSt) :=
  if env.failAt st.step then Except.error (st.step, st)
  else
    let (a, db) := f st.db
    Except.ok (a, ⟨db, st.step + 1, st.trace ++ [ev]⟩)

/-- The argument record built for `createBooking` at lines 177–191 of
`routes/webhooks.js` (with the `|| 'other'` / `|| 'normal'` defaults
already applied, as in the source). -/
structure BookingData where
  callId : Nat
  workshopId : Nat
  customerName : Option String
  customerPhone : Option String
  customerEmail : Option String
  vehicleMake : Option String
  vehicleModel : Option String
  vehicleYear : Option Int
  issueSummary : Option String
  issueCategory : String
  urgency : String
  preferredDate : JVal
  preferredTime : JVal
deriving DecidableEq

/-- Step 1 of `createBooking` after the lookup: reuse the first selected
customer row's id, or insert a new customer (`RETURNING id`). -/
def resolveCustomer (env : Env) (d : BookingData) (rows : List CustomerRow) (st : TxSt) :
    Except (Nat × TxSt) (Nat × TxSt) :=
  match rows with
  | [] =>
    txQuery env (.insertCustomer st.db.nextId)
      (fun db => (db.nextId,
        { db with nextId := db.nextId + 1,
                  customers := db.customers ++
                    [⟨db.nextId, d.workshopId, d.customerName, d.customerPhone, d.customerEmail⟩] })) st
  | c :: _ => Except.ok (c.id, st)

/-- Step 2 of `createBooking`: insert a vehicle when make and model are
both truthy, returning its id, else no vehicle. -/
def createVehicle (env : Env) (d : BookingData) (customerId : Nat) (st : TxSt) :
    Except (Nat × TxSt) (Option Nat × TxSt) :=
  if truthyStr d.vehicleMake && truthyStr d.vehicleModel then
    txQuery env (.insertVehicle st.db.nextId)
      (fun db => ((some db.nextId : Option Nat),
        { db with nextId := db.nextId + 1,
                  vehicles := db.vehicles ++
                    [⟨db.nextId, customerId, d.vehicleMake, d.vehicleModel, d.vehicleYear⟩] })) st
  else Except.ok ((none : Option Nat), st)

/-- Function `createBooking(data, client)`: find-or-create the customer by
`(workshop_id, phone)`, create a vehicle when make and model are both
truthy, parse the schedule, insert the booking with status `confirmed`,
mark the analysis row's `booking_created`, then attempt the notification
POST whose failure is caught and swallowed. -/
def createBooking (env : Env) (d : BookingData) (st : TxSt) :
    Except (Nat × TxSt) (BookingRow × TxSt) :=
  match txQuery env (.selectCustomer d.workshopId d.customerPhone)
      (fun db => (db.customers.filter (custMatch d.workshopId d.customerPhone), db)) st with
  | .error es => .error es
  | .ok (rows, st1) =>
    match resolveCustomer env d rows st1 with
    | .error es => .error es
    | .ok (customerId, st2) =>
      match createVehicle env d customerId st2 with
      | .error es => .error es
      | .ok (vehicleId, st3) =>
        let scheduledAt := parseDateTime env.today d.preferredDate d.preferredTime
        match txQuery env (.insertBooking st3.db.nextId)
            (fun db =>
              let b : BookingRow :=
                ⟨db.nextId, d.workshopId, customerId, vehicleId, d.callId,
                 scheduledAt, d.issueSummary, d.issueCategory, d.urgency, "confirmed"⟩
              (b, { db with nextId := db.nextId + 1, bookings := db.bookings ++ [b] })) st3 with
        | .error es => .error es
        | .ok (booking, st4) =>
          match txQuery env (.updateAnalysis d.callId)
              (fun db => ((),
                { db with analyses := db.analyses.map (fun a =>
                    if a.call_id == d.callId then { a with booking_created := true } else a) })) st4 with
          | .error es => .error es
          | .ok (_, st5) =>
            let st6 : TxSt :=
              { st5 with trace := st5.trace ++
                  [.notifyPost booking.id d.workshopId customerId d.customerEmail scheduledAt] }
            let st7 : TxSt :=
              if env.notifyFails then
                { st6 with trace := st6.trace ++ [.notifyFailedSwallowed] }
              else st6
            Except.ok (booking, st7)

/-- The input of `processCallEnded` as assembled by the call-ended route
handler (`call.cost || 0` already applied; `sentiment` is the
`analysis?.sentiment` object, of which only `.label` is read). -/
structure CallEndedData where
  callId : Nat
  workshopId : Nat
  duration : Option Int
  cost : Int
  endReason : Option String
  recording : Option String
  transcript : Option String
  structuredData : StructuredData
  sentimentLabel : Option String
deriving DecidableEq

/-- The `call_analysis` row inserted by step 2 of `processCallEnded`:
sentiment is `sentiment?.label || 'neutral'` and `booking_created` is
`structuredData.booking_confirmed || false`. -/
def analysisRowOf (d : CallEndedData) : CallAnalysisRow :=
  ⟨d.callId, d.structuredData, d.structuredData.customer_name,
   d.structuredData.customer_phone, d.structuredData.vehicle_make,
   d.structuredData.vehicle_model, d.structuredData.issue_summary,
   jsOrDefault d.sentimentLabel "neutral",
   jsBool d.structuredData.booking_confirmed⟩

/-- The `bookingData` record of lines 177–191. -/
def bookingDataOf (d : CallEndedData) : BookingData :=
  ⟨d.callId, d.workshopId,
   d.structuredData.customer_name, d.structuredData.customer_phone,
   d.structuredData.customer_email, d.structuredData.vehicle_make,
   d.structuredData.vehicle_model, d.structuredData.vehicle_year,
   d.structuredData.issue_summary,
   jsOrDefault d.structuredData.issue_category "other",
   jsOrDefault d.structuredData.urgency "normal",
   d.structuredData.preferred_date, d.structuredData.preferred_time⟩

/-- Step 1 of `processCallEnded`: the UPDATE of the call row to
`completed` with end timestamp, duration, cost, recording and
transcript. -/
def updateCallRow (env : Env) (d : CallEndedData) (db : Db) : Unit × Db :=
  ((), { db with calls := db.calls.map (fun c =>
      if c.id == d.callId then
        { c with status := "completed", ended_at := some env.now,
                 duration_seconds := d.duration, cost_usd := d.cost,
                 recording_url := d.recording, transcript := d.transcript }
      else c) })

/-- Step 2 of `processCallEnded`: the INSERT into `call_analysis`. -/
def insertAnalysisStmt (d : CallEndedData) (db : Db) : Unit × Db :=
  ((), { db with analyses := db.analyses ++ [analysisRowOf d] })

/-- The body of the `try` block of `processCallEnded` after `BEGIN`:
update the call row to `completed`, insert the analysis row, and when
`booking_confirmed && customer_name` invoke `createBooking` in the same
transaction. -/
def txnBody (env : Env) (d : CallEndedData) (st : TxSt) : Except (Nat × TxSt) TxSt :=
  match txQuery env (.updateCall d.callId) (updateCallRow env d) st with
  | .error es => .error es
  | .ok (_, st1) =>
    match txQuery env (.insertAnalysis d.callId) (insertAnalysisStmt d) st1 with
    | .error es => .error es
    | .ok (_, st2) =>
      if bookingCond d.structuredData then
        match createBooking env (bookingDataOf d) st2 with
        | .error es => .error es
        | .ok (_, st3) => Except.ok st3
      else Except.ok st2

/-- Function `processCallEnded(data)`: BEGIN, run the body, COMMIT on success —
making the pending database the new database — or ROLLBACK on any error,
discarding every pending change and leaving the database as it was.
Returns the resulting database, the event trace, and the failed statement
index if the transaction was rolled back. -/
def processCallEnded (env : Env) (db : Db) (d : CallEndedData) :
    Db × List Ev × Option Nat :=
  match txnBody env d ⟨db, 0, [.txnBegin]⟩ with
  | .ok st => (st.db, st.trace ++ [.txnCommit], none)
  | .error (e, st) => (db, st.trace ++ [.txnRollback], some e)

/-! ## Webhook signature verification -/

/-- Modelled from the spec: the HMAC-SHA256 primitive
(`crypto.createHmac('sha256', secret).update(payload).digest('hex')`) is
external library code, not part of this repository; it is modelled
symbolically as a keyed MAC that is injective in the payload — the
standard idealization under which the spec states its tamper-detection
property. -/
def hmacSHA256hex (secret payload : String) : String :=
  "hmac:" ++ secret ++ "|" ++ payload

/-- Function `verifyVapiSignature(req)` of `routes/webhooks.js`. The two headers are
`Option`s (`none` = absent); an empty signature string is also falsy in the
JS presence check. The timestamp header is modelled after its JS numeric
coercion in `now - timestamp`, and the payload is
`timestamp + '.' + JSON.stringify(req.body)` with `body` the serialized
request body. Errors carry the thrown messages. -/
def verifyVapiSignature (secret : String) (now : Int) (signature : Option String)
    (timestamp : Option Int) (body : String) : Except String Unit :=
  match signature, timestamp with
  | none, _ => .error "Missing signature or timestamp"
  | some _, none => .error "Missing signature or timestamp"
  | some sig, some ts =>
    if sig = "" then .error "Missing signature or timestamp"
    else if 300 < (now - ts).natAbs then .error "Webhook timestamp too old"
    else if sig ≠ hmacSHA256hex secret (toString ts ++ "." ++ body) then
      .error "Invalid signature"
    else .ok ()

/-! ## Concrete fixtures (shared by witnesses and counterexamples) -/

/-- Structured data of a confirmed booking with a customer name and phone. -/
def sdBase : StructuredData :=
  ⟨some "Alice", some "555-0100", some "alice@example.com", none, none, none,
   some "brakes squeal", none, none, .null, .null, some true⟩

/-- A call-ended event for call 1 of workshop 7 carrying `sdBase`. -/
def dataBase : CallEndedData :=
  ⟨1, 7, some 60, 0, none, none, none, sdBase, none⟩

/-- A database holding just call 1, in progress. -/
def dbBase : Db :=
  ⟨100, [⟨1, "in-progress", none, none, 0, none, none⟩], [], [], [], []⟩

/-- An environment in which every statement succeeds. -/
def envOk : Env := ⟨⟨2026, 10, 11⟩, 500, fun _ => false, false⟩

example : (processCallEnded envOk dbBase dataBase).2.2 = none := by decide

example : (processCallEnded envOk dbBase dataBase).2.1 =
    [.txnBegin, .updateCall 1, .insertAnalysis 1,
     .selectCustomer 7 (some "555-0100"), .insertCustomer 100,
     .insertBooking 101, .updateAnalysis 1,
     .notifyPost 101 7 100 (some "alice@example.com") (⟨2026, 10, 12⟩, 10, 0),
     .txnCommit] := by decide

/-! ## Date/time parsing claims -/

/-- C10: when the date is absent (null or empty string), `parseDateTime`
returns tomorrow at 10:00 for every time value — the time argument is never
consulted on the date-absent path. -/
theorem dateAbsent_ignores_time (today : CalDate) (time : JVal) :
    parseDateTime today .null time = (nextDay today, 10, 0) ∧
    parseDateTime today (.str "") time = (nextDay today, 10, 0) :=
  ⟨rfl, rfl⟩

/-- C6 counterexample: the claim says `("today", "9am")` parses to today at
09:00; the time regex requires minutes (`(\d{1,2}):(\d{2})`), so `"9am"`
does not match and the result is today at 10:00, not 09:00. -/
theorem time_without_minutes_cex :
    parseDateTime ⟨2026, 10, 11⟩ (.str "today") (.str "9am") = (⟨2026, 10, 11⟩, 10, 0) ∧
    parseDateTime ⟨2026, 10, 11⟩ (.str "today") (.str "9am") ≠ (⟨2026, 10, 11⟩, 9, 0) := by
  exact ⟨by decide, by decide⟩

/-- C6 (amended): an absent time yields 10:00; a present time is searched
with `(\d{1,2}):(\d{2})\s*(am|pm)?` case-insensitively — minutes are
required — and converted to 24-hour (12pm→12, 12am→0, Npm→N+12 for N<12);
a non-matching time (such as "9am") defaults to 10:00, so
`("today", "9am")` parses to today at 10:00 while
`("2025-01-30", "2:30 pm")` parses to 2025-01-30T14:30. -/
theorem timeParsing_amended (today : CalDate) (s ts : String) (h m : Nat)
    (ap : Option String) :
    (s ≠ "" → parseDateTime today (.str s) .null = (targetDateOf today s, 10, 0))
    ∧ (s ≠ "" → ts ≠ "" →
        parseDateTime today (.str s) (.str ts) =
          (targetDateOf today s, (timeHM ts).1, (timeHM ts).2))
    ∧ (timeSearch ts.data = none → timeHM ts = (10, 0))
    ∧ (timeSearch ts.data = some (h, m, ap) → timeHM ts = adjustAmPm h m ap)
    ∧ (ap = some "pm" → h < 12 → adjustAmPm h m ap = (h + 12, m))
    ∧ (adjustAmPm 12 m (some "pm") = (12, m))
    ∧ (adjustAmPm 12 m (some "am") = (0, m))
    ∧ (adjustAmPm h m none = (h, m))
    ∧ (parseDateTime today (.str "2025-01-30") (.str "2:30 pm") = (⟨2025, 1, 30⟩, 14, 30))
    ∧ (parseDateTime today (.str "today") (.str "9am") = (today, 10, 0)) := by
  refine ⟨?_, ?_, ?_, ?_, ?_, ?_, ?_, ?_, ?_, ?_⟩
  · intro hs
    simp [parseDateTime, JVal.truthy, hs]
  · intro hs hts
    simp [parseDateTime, JVal.truthy, hs, hts]
  · intro hns
    simp [timeHM, hns]
  · intro hsome
    simp [timeHM, hsome]
  · intro hap hlt
    simp [adjustAmPm, hap, hlt, Nat.ne_of_gt (Nat.lt_of_lt_of_le hlt (Nat.le_add_right 12 h))]
  · simp [adjustAmPm]
  · simp [adjustAmPm]
  · simp [adjustAmPm]
  · exact rfl
  · exact rfl

/-- C7: an absent date yields tomorrow; a strict `YYYY-MM-DD` match yields
that calendar date; case-insensitive "tomorrow" yields today + 1;
"today" yields today; any other non-empty string silently yields tomorrow;
and a parse exception (a truthy non-string date or time, on which the JS
`.match` call throws) falls back to tomorrow at 10:00 without
propagating. -/
theorem dateParsing_spec (today : CalDate) (s : String) (time : JVal) :
    ((parseDateTime today .null time).1 = nextDay today)
    ∧ (∀ cd, isoMatch s = some cd → targetDateOf today s = cd)
    ∧ (isoMatch s = none → strToLower s = "tomorrow" →
        targetDateOf today s = nextDay today)
    ∧ (isoMatch s = none → strToLower s = "today" → targetDateOf today s = today)
    ∧ (isoMatch s = none → strToLower s ≠ "tomorrow" → strToLower s ≠ "today" →
        targetDateOf today s = nextDay today)
    ∧ (s ≠ "" → ∀ ts, time = .str ts →
        (parseDateTime today (.str s) time).1 = targetDateOf today s)
    ∧ (s ≠ "" → time.truthy = false →
        parseDateTime today (.str s) time = (targetDateOf today s, 10, 0))
    ∧ (∀ n : Int, n ≠ 0 → parseDateTime today (.num n) time = (nextDay today, 10, 0))
    ∧ (parseDateTime today (.bool true) time = (nextDay today, 10, 0))
    ∧ (∀ n : Int, s ≠ "" → n ≠ 0 →
        parseDateTime today (.str s) (.num n) = (nextDay today, 10, 0)) := by
  refine ⟨rfl, ?_, ?_, ?_, ?_, ?_, ?_, ?_, rfl, ?_⟩
  · intro cd hiso
    simp [targetDateOf, hiso]
  · intro hiso htom
    simp [targetDateOf, hiso, htom]
  · intro hiso htod
    simp [targetDateOf, hiso, htod]
  · intro hiso htom htod
    simp [targetDateOf, hiso, htom, htod]
  · intro hs ts hts
    subst hts
    by_cases hts2 : ts = "" <;> simp [parseDateTime, JVal.truthy, hs, hts2]
  · intro hs htf
    cases time with
    | null => simp [parseDateTime, JVal.truthy, hs]
    | str ts =>
      have h0 : ts = "" := by simpa [JVal.truthy] using htf
      subst h0
      simp [parseDateTime, JVal.truthy, hs]
    | num n =>
      have h0 : n = 0 := by simpa [JVal.truthy] using htf
      subst h0
      simp [parseDateTime, JVal.truthy, hs]
    | bool b =>
      have h0 : b = false := by simpa [JVal.truthy] using htf
      subst h0
      simp [parseDateTime, JVal.truthy, hs]
  · intro n hn
    simp [parseDateTime, JVal.truthy, hn]
  · intro n hs hn
    simp [parseDateTime, JVal.truthy, hs, hn]

/-- Witness for `timeParsing_amended` at concrete inputs. -/
theorem timeParsing_amended_witness :
    parseDateTime ⟨2026, 10, 11⟩ (.str "today") (.str "14:00") =
      (targetDateOf ⟨2026, 10, 11⟩ "today", (timeHM "14:00").1, (timeHM "14:00").2) ∧
    timeHM "garbage" = (10, 0) ∧
    adjustAmPm 2 30 (some "pm") = (2 + 12, 30) :=
  ⟨(timeParsing_amended ⟨2026, 10, 11⟩ "today" "14:00" 2 30 (some "pm")).2.1
      (by decide) (by decide),
   (timeParsing_amended ⟨2026, 10, 11⟩ "today" "garbage" 2 30 (some "pm")).2.2.1
      (by decide),
   (timeParsing_amended ⟨2026, 10, 11⟩ "today" "14:00" 2 30 (some "pm")).2.2.2.2.1
      rfl (by decide)⟩

/-- Witness for `dateParsing_spec` at concrete inputs. -/
theorem dateParsing_spec_witness :
    targetDateOf ⟨2026, 10, 11⟩ "2025-01-30" = ⟨2025, 1, 30⟩ ∧
    parseDateTime ⟨2026, 10, 11⟩ (.str "garbage") .null =
      (targetDateOf ⟨2026, 10, 11⟩ "garbage", 10, 0) ∧
    parseDateTime ⟨2026, 10, 11⟩ (.num 5) .null = (nextDay ⟨2026, 10, 11⟩, 10, 0) :=
  ⟨(dateParsing_spec ⟨2026, 10, 11⟩ "2025-01-30" .null).2.1 ⟨2025, 1, 30⟩ (by decide),
   (dateParsing_spec ⟨2026, 10, 11⟩ "garbage" .null).2.2.2.2.2.2.1 (by decide) rfl,
   (dateParsing_spec ⟨2026, 10, 11⟩ "x" .null).2.2.2.2.2.2.2.1 5 (by decide)⟩

/-! ## Signature verification claim -/

/-- Left-cancellation of string append, via the character lists. -/
lemma append_left_cancel_str (a p q : String) (h : a ++ p = a ++ q) : p = q := by
  have h2 := congrArg String.data h
  simp [String.data_append] at h2
  cases p; cases q; exact congrArg String.mk h2

/-- The symbolic MAC is injective in the payload for a fixed key. -/
lemma hmacSHA256hex_payload_inj (secret p q : String)
    (h : hmacSHA256hex secret p = hmacSHA256hex secret q) : p = q :=
  append_left_cancel_str ("hmac:" ++ secret ++ "|") p q h

/-- Unfolding of `verifyVapiSignature` when both headers are present. -/
lemma verify_headers_present (secret : String) (now : Int) (sig : String) (ts : Int)
    (body : String) :
    verifyVapiSignature secret now (some sig) (some ts) body =
      (if sig = "" then .error "Missing signature or timestamp"
       else if 300 < (now - ts).natAbs then .error "Webhook timestamp too old"
       else if sig ≠ hmacSHA256hex secret (toString ts ++ "." ++ body) then
         .error "Invalid signature"
       else .ok ()) := rfl

/-- Unfolding of `verifyVapiSignature` when the signature header is absent. -/
lemma verify_sig_absent (secret : String) (now : Int) (ts : Option Int) (body : String) :
    verifyVapiSignature secret now none ts body =
      .error "Missing signature or timestamp" := by
  cases ts <;> rfl

/-- Unfolding of `verifyVapiSignature` when the timestamp header is absent. -/
lemma verify_ts_absent (secret : String) (now : Int) (sig : String) (body : String) :
    verifyVapiSignature secret now (some sig) none body =
      .error "Missing signature or timestamp" := rfl

/-- C5: verification fails when the signature or timestamp header is
absent, fails when the timestamp is more than 300 seconds from now, fails
when the signature differs from the hex HMAC-SHA256 of
`timestamp + "." + body` under the secret, succeeds otherwise — and a
previously valid signature is invalid for any altered body. -/
theorem verifyVapiSignature_spec (secret : String) (now : Int)
    (signature : Option String) (timestamp : Option Int) (body : String) :
    (verifyVapiSignature secret now signature timestamp body = .ok () ↔
      ∃ s t, signature = some s ∧ s ≠ "" ∧ timestamp = some t ∧
        (now - t).natAbs ≤ 300 ∧ s = hmacSHA256hex secret (toString t ++ "." ++ body))
    ∧ (signature = none ∨ signature = some "" ∨ timestamp = none →
        verifyVapiSignature secret now signature timestamp body =
          .error "Missing signature or timestamp")
    ∧ (∀ s t, signature = some s → s ≠ "" → timestamp = some t →
        300 < (now - t).natAbs →
        verifyVapiSignature secret now signature timestamp body =
          .error "Webhook timestamp too old")
    ∧ (∀ s t, signature = some s → s ≠ "" → timestamp = some t →
        (now - t).natAbs ≤ 300 →
        s ≠ hmacSHA256hex secret (toString t ++ "." ++ body) →
        verifyVapiSignature secret now signature timestamp body =
          .error "Invalid signature")
    ∧ (∀ body', body' ≠ body →
        verifyVapiSignature secret now signature timestamp body = .ok () →
        verifyVapiSignature secret now signature timestamp body' ≠ .ok ()) := by
  refine ⟨?_, ?_, ?_, ?_, ?_⟩
  · constructor
    · intro h
      match signature, timestamp with
      | none, ts => rw [verify_sig_absent] at h; exact absurd h (by simp)
      | some sig, none => rw [verify_ts_absent] at h; exact absurd h (by simp)
      | some sig, some ts =>
        rw [verify_headers_present] at h
        by_cases ha : sig = ""
        · simp [ha] at h
        by_cases hb : 300 < (now - ts).natAbs
        · simp [ha, hb] at h
        by_cases hc : sig = hmacSHA256hex secret (toString ts ++ "." ++ body)
        · exact ⟨sig, ts, rfl, ha, rfl, Nat.le_of_not_lt hb, hc⟩
        · simp [ha, hb, hc] at h
    · rintro ⟨s, t, hsig, hne, hts, hwin, hmac⟩
      subst hsig; subst hts
      rw [verify_headers_present]
      simp [hne, Nat.not_lt.mpr hwin, ← hmac]
  · rintro (h | h | h)
    · subst h; exact verify_sig_absent secret now timestamp body
    · subst h
      cases timestamp with
      | none => exact verify_ts_absent secret now "" body
      | some t =>
        rw [verify_headers_present]
        simp
    · subst h
      cases signature with
      | none => exact verify_sig_absent secret now none body
      | some s => exact verify_ts_absent secret now s body
  · intro s t hsig hne hts hold
    subst hsig; subst hts
    rw [verify_headers_present]
    simp [hne, hold]
  · intro s t hsig hne hts hwin hbad
    subst hsig; subst hts
    rw [verify_headers_present]
    simp [hne, Nat.not_lt.mpr hwin, hbad]
  · intro body' hnb hok hok2
    match signature, timestamp with
    | none, ts => rw [verify_sig_absent] at hok; exact absurd hok (by simp)
    | some sig, none => rw [verify_ts_absent] at hok; exact absurd hok (by simp)
    | some sig, some ts =>
      rw [verify_headers_present] at hok hok2
      by_cases ha : sig = ""
      · simp [ha] at hok
      by_cases hb : 300 < (now - ts).natAbs
      · simp [ha, hb] at hok
      by_cases hc : sig = hmacSHA256hex secret (toString ts ++ "." ++ body)
      case neg => simp [ha, hb, hc] at hok
      by_cases hf : sig = hmacSHA256hex secret (toString ts ++ "." ++ body')
      case neg => simp [ha, hb, hf] at hok2
      have hpay := hmacSHA256hex_payload_inj secret _ _ (hc.symm.trans hf)
      have hbody := append_left_cancel_str (toString ts ++ ".") body body' hpay
      exact hnb hbody.symm

/-- Witness for `verifyVapiSignature_spec`: a concrete valid request is
accepted, and the same signature over an altered body is rejected. -/
theorem verifyVapiSignature_spec_witness :
    verifyVapiSignature "s" 1000 (some (hmacSHA256hex "s" "1000.B")) (some 1000) "B" =
      .ok () ∧
    verifyVapiSignature "s" 1000 (some (hmacSHA256hex "s" "1000.B")) (some 1000) "C" ≠
      .ok () := by
  have hok : verifyVapiSignature "s" 1000 (some (hmacSHA256hex "s" "1000.B"))
      (some 1000) "B" = .ok () :=
    (verifyVapiSignature_spec "s" 1000 (some (hmacSHA256hex "s" "1000.B"))
        (some 1000) "B").1.mpr
      ⟨hmacSHA256hex "s" "1000.B", 1000, rfl, by decide, rfl, by decide, by decide⟩
  exact ⟨hok,
    (verifyVapiSignature_spec "s" 1000 (some (hmacSHA256hex "s" "1000.B"))
        (some 1000) "B").2.2.2.2 "C" (by decide) hok⟩

/-! ## Call-ended transaction claims -/

/-- C1: call-ended processing is atomic — whenever any statement of the
transaction fails, the whole transaction is rolled back and the database
is exactly as before: the call row keeps its prior status and no analysis,
customer, vehicle or booking row from the invocation is retained. -/
theorem callEnded_rollback_on_failure (env : Env) (db : Db) (d : CallEndedData)
    (e : Nat) (h : (processCallEnded env db d).2.2 = some e) :
    (processCallEnded env db d).1 = db := by
  unfold processCallEnded at h ⊢
  cases htx : txnBody env d ⟨db, 0, [Ev.txnBegin]⟩ with
  | ok st => rw [htx] at h; simp at h
  | error es => obtain ⟨e2, st2⟩ := es; rfl

/-- An environment whose third statement (the customer lookup inside
booking creation) fails. -/
def envFail2 : Env := ⟨⟨2026, 10, 11⟩, 500, fun n => n == 2, false⟩

/-- Witness for `callEnded_rollback_on_failure`: with the customer lookup
failing, the run reports the failure and the database is unchanged — the
call row is still `in-progress` and no analysis row is retained. -/
theorem callEnded_rollback_on_failure_witness :
    (processCallEnded envFail2 dbBase dataBase).2.2 = some 2 ∧
    (processCallEnded envFail2 dbBase dataBase).1 = dbBase :=
  ⟨by decide, callEnded_rollback_on_failure envFail2 dbBase dataBase 2 (by decide)⟩

/-- The failing input of C4: booking confirmed but no customer name, so no
booking is ever created for the call. -/
def sdConfirmedNoName : StructuredData :=
  ⟨none, some "555-0100", none, none, none, none, some "engine noise", none, none,
   .null, .null, some true⟩

/-- The call-ended event carrying `sdConfirmedNoName`. -/
def dataConfirmedNoName : CallEndedData :=
  ⟨1, 7, some 60, 0, none, none, none, sdConfirmedNoName, none⟩

/-- C4: the code inserts the CallAnalysis row with
`booking_created = structuredData.booking_confirmed || false`, not `false`:
at the failing input (booking confirmed, no customer name) the processed
run succeeds, the inserted row already has `booking_created = true`, yet no
booking row exists — contradicting the claim that the row is inserted with
booking-created = false and only set true after a Booking is created. The
sentiment default and the flag being the only later mutation do hold. -/
theorem analysis_inserted_with_confirmed_flag :
    (processCallEnded envOk dbBase dataConfirmedNoName).2.2 = none ∧
    (processCallEnded envOk dbBase dataConfirmedNoName).1.analyses =
      [analysisRowOf dataConfirmedNoName] ∧
    (analysisRowOf dataConfirmedNoName).booking_created = true ∧
    (analysisRowOf dataConfirmedNoName).sentiment = "neutral" ∧
    (processCallEnded envOk dbBase dataConfirmedNoName).1.bookings = [] := by
  refine ⟨?_, ?_, ?_, ?_, ?_⟩ <;> decide

/-! ## Shape lemmas for the transaction body -/

/-- A successful `txQuery` applied its statement to the pending database. -/
lemma txQuery_ok {α : Type} {env : Env} {ev : Ev} {f : Db → α × Db} {st : TxSt}
    {r : α × TxSt} (h : txQuery env ev f st = .ok r) :
    r = ((f st.db).1, ⟨(f st.db).2, st.step + 1, st.trace ++ [ev]⟩) := by
  unfold txQuery at h
  by_cases hfail : env.failAt st.step = true
  · rw [if_pos hfail] at h; exact absurd h (by simp)
  · rw [if_neg hfail] at h
    exact (Except.ok.inj h).symm

/-- Without failures, `txQuery` succeeds and applies its statement. -/
lemma txQuery_noFail {α : Type} (env : Env) (hf : ∀ n, env.failAt n = false)
    (ev : Ev) (f : Db → α × Db) (st : TxSt) :
    txQuery env ev f st =
      .ok ((f st.db).1, ⟨(f st.db).2, st.step + 1, st.trace ++ [ev]⟩) := by
  unfold txQuery
  rw [hf st.step]
  rfl

/-- Shape of a failure-free `createBooking` run: it succeeds, appends
exactly one booking for the call, resolves the customer by the
`(workshop, phone)` lookup — reusing the first match or inserting a fresh
row — and its trace ends with the booking insert, the analysis update and
the notification POST, in that order. -/
lemma createBooking_noFail (env : Env) (hf : ∀ n, env.failAt n = false)
    (d : BookingData) (st : TxSt) :
    ∃ b : BookingRow, ∃ st' : TxSt,
      createBooking env d st = .ok (b, st') ∧
      st'.db.bookings = st.db.bookings ++ [b] ∧
      b.call_id = d.callId ∧ b.workshop_id = d.workshopId ∧ b.status = "confirmed" ∧
      ((st.db.customers.filter (custMatch d.workshopId d.customerPhone) = [] ∧
          st'.db.customers = st.db.customers ++
            [⟨st.db.nextId, d.workshopId, d.customerName, d.customerPhone,
              d.customerEmail⟩] ∧
          b.customer_id = st.db.nextId) ∨
        (∃ c cs,
          st.db.customers.filter (custMatch d.workshopId d.customerPhone) = c :: cs ∧
          st'.db.customers = st.db.customers ∧ b.customer_id = c.id)) ∧
      (∃ evs : List Ev, st'.trace = st.trace ++
          [Ev.selectCustomer d.workshopId d.customerPhone] ++ evs ++
          [Ev.insertBooking b.id, Ev.updateAnalysis d.callId,
           Ev.notifyPost b.id d.workshopId b.customer_id d.customerEmail
             (parseDateTime env.today d.preferredDate d.preferredTime)] ++
          (if env.notifyFails then [Ev.notifyFailedSwallowed] else [])) := by
  unfold createBooking resolveCustomer createVehicle
  simp only [txQuery_noFail env hf]
  cases hrows : st.db.customers.filter (custMatch d.workshopId d.customerPhone) with
  | nil =>
    by_cases hveh : (truthyStr d.vehicleMake && truthyStr d.vehicleModel) = true
    · simp only [hrows, hveh, if_pos, txQuery_noFail env hf]
      by_cases hnf : env.notifyFails = true
      · rw [if_pos hnf]
        exact ⟨_, _, rfl, rfl, rfl, rfl, rfl, Or.inl ⟨by simp [hrows], rfl, rfl⟩,
          ⟨[Ev.insertCustomer st.db.nextId, Ev.insertVehicle (st.db.nextId + 1)],
           by simp [hnf]⟩⟩
      · rw [if_neg hnf]
        exact ⟨_, _, rfl, rfl, rfl, rfl, rfl, Or.inl ⟨by simp [hrows], rfl, rfl⟩,
          ⟨[Ev.insertCustomer st.db.nextId, Ev.insertVehicle (st.db.nextId + 1)],
           by simp [hnf]⟩⟩
    · simp only [hrows, hveh, if_neg, txQuery_noFail env hf, Bool.not_eq_true]
      by_cases hnf : env.notifyFails = true
      · rw [if_pos hnf]
        exact ⟨_, _, rfl, rfl, rfl, rfl, rfl, Or.inl ⟨by simp [hrows], rfl, rfl⟩,
          ⟨[Ev.insertCustomer st.db.nextId], by simp [hnf]⟩⟩
      · rw [if_neg hnf]
        exact ⟨_, _, rfl, rfl, rfl, rfl, rfl, Or.inl ⟨by simp [hrows], rfl, rfl⟩,
          ⟨[Ev.insertCustomer st.db.nextId], by simp [hnf]⟩⟩
  | cons c cs =>
    by_cases hveh : (truthyStr d.vehicleMake && truthyStr d.vehicleModel) = true
    · simp only [hrows, hveh, if_pos, txQuery_noFail env hf]
      by_cases hnf : env.notifyFails = true
      · rw [if_pos hnf]
        exact ⟨_, _, rfl, rfl, rfl, rfl, rfl, Or.inr ⟨c, cs, by simp [hrows], rfl, rfl⟩,
          ⟨[Ev.insertVehicle st.db.nextId], by simp [hnf]⟩⟩
      · rw [if_neg hnf]
        exact ⟨_, _, rfl, rfl, rfl, rfl, rfl, Or.inr ⟨c, cs, by simp [hrows], rfl, rfl⟩,
          ⟨[Ev.insertVehicle st.db.nextId], by simp [hnf]⟩⟩
    · simp only [hrows, hveh, if_neg, txQuery_noFail env hf, Bool.not_eq_true]
      by_cases hnf : env.notifyFails = true
      · rw [if_pos hnf]
        exact ⟨_, _, rfl, rfl, rfl, rfl, rfl, Or.inr ⟨c, cs, by simp [hrows], rfl, rfl⟩,
          ⟨([] : List Ev), by simp [hnf]⟩⟩
      · rw [if_neg hnf]
        exact ⟨_, _, rfl, rfl, rfl, rfl, rfl, Or.inr ⟨c, cs, by simp [hrows], rfl, rfl⟩,
          ⟨([] : List Ev), by simp [hnf]⟩⟩

/-- Shape of a failure-free transaction body when the booking condition
holds: both fixed statements run, then `createBooking`; exactly one
booking is appended and the trace interleaves exactly as the code does. -/
lemma txnBody_noFail_booking (env : Env) (hf : ∀ n, env.failAt n = false)
    (d : CallEndedData) (st : TxSt) (hcond : bookingCond d.structuredData = true) :
    ∃ b : BookingRow, ∃ st' : TxSt,
      txnBody env d st = .ok st' ∧
      st'.db.bookings = st.db.bookings ++ [b] ∧
      b.call_id = d.callId ∧ b.workshop_id = d.workshopId ∧ b.status = "confirmed" ∧
      ((st.db.customers.filter
           (custMatch d.workshopId d.structuredData.customer_phone) = [] ∧
          st'.db.customers = st.db.customers ++
            [⟨st.db.nextId, d.workshopId, d.structuredData.customer_name,
              d.structuredData.customer_phone, d.structuredData.customer_email⟩] ∧
          b.customer_id = st.db.nextId) ∨
        (∃ c cs,
          st.db.customers.filter
            (custMatch d.workshopId d.structuredData.customer_phone) = c :: cs ∧
          st'.db.customers = st.db.customers ∧ b.customer_id = c.id)) ∧
      (∃ evs : List Ev, st'.trace = st.trace ++
          [Ev.updateCall d.callId, Ev.insertAnalysis d.callId,
           Ev.selectCustomer d.workshopId d.structuredData.customer_phone] ++ evs ++
          [Ev.insertBooking b.id, Ev.updateAnalysis d.callId,
           Ev.notifyPost b.id d.workshopId b.customer_id
             d.structuredData.customer_email
             (parseDateTime env.today d.structuredData.preferred_date
               d.structuredData.preferred_time)] ++
          (if env.notifyFails then [Ev.notifyFailedSwallowed] else [])) := by
  obtain ⟨b, st', hcb, hbook, hcall, hws, hstat, hcust, evs, htr⟩ :=
    createBooking_noFail env hf (bookingDataOf d)
      ⟨(insertAnalysisStmt d (updateCallRow env d st.db).2).2, st.step + 1 + 1,
       st.trace ++ [Ev.updateCall d.callId] ++ [Ev.insertAnalysis d.callId]⟩
  refine ⟨b, st', ?_, ?_, hcall, hws, hstat, ?_, ⟨evs, ?_⟩⟩
  · unfold txnBody
    simp only [txQuery_noFail env hf, hcond, if_true]
    rw [hcb]
  · simpa [insertAnalysisStmt, updateCallRow] using hbook
  · simpa [insertAnalysisStmt, updateCallRow, bookingDataOf] using hcust
  · rw [htr]
    simp [insertAnalysisStmt, updateCallRow, bookingDataOf, List.append_assoc]

/-- Shape of a failure-free call-ended run with the booking condition:
it commits, appends exactly one booking, resolves the customer by the
lookup, and its trace puts the notification POST after the booking insert
and before the COMMIT. -/
lemma processCallEnded_noFail_booking (env : Env) (hf : ∀ n, env.failAt n = false)
    (db : Db) (d : CallEndedData) (hcond : bookingCond d.structuredData = true) :
    ∃ b : BookingRow,
      (processCallEnded env db d).2.2 = none ∧
      (processCallEnded env db d).1.bookings = db.bookings ++ [b] ∧
      b.call_id = d.callId ∧ b.workshop_id = d.workshopId ∧ b.status = "confirmed" ∧
      ((db.customers.filter
           (custMatch d.workshopId d.structuredData.customer_phone) = [] ∧
          (processCallEnded env db d).1.customers = db.customers ++
            [⟨db.nextId, d.workshopId, d.structuredData.customer_name,
              d.structuredData.customer_phone, d.structuredData.customer_email⟩] ∧
          b.customer_id = db.nextId) ∨
        (∃ c cs,
          db.customers.filter
            (custMatch d.workshopId d.structuredData.customer_phone) = c :: cs ∧
          (processCallEnded env db d).1.customers = db.customers ∧
          b.customer_id = c.id)) ∧
      (∃ evs : List Ev, (processCallEnded env db d).2.1 =
          [Ev.txnBegin, Ev.updateCall d.callId, Ev.insertAnalysis d.callId,
           Ev.selectCustomer d.workshopId d.structuredData.customer_phone] ++ evs ++
          [Ev.insertBooking b.id, Ev.updateAnalysis d.callId,
           Ev.notifyPost b.id d.workshopId b.customer_id
             d.structuredData.customer_email
             (parseDateTime env.today d.structuredData.preferred_date
               d.structuredData.preferred_time)] ++
          (if env.notifyFails then [Ev.notifyFailedSwallowed] else []) ++
          [Ev.txnCommit]) := by
  obtain ⟨b, st', htx, hbook, hcall, hws, hstat, hcust, evs, htr⟩ :=
    txnBody_noFail_booking env hf d ⟨db, 0, [Ev.txnBegin]⟩ hcond
  unfold processCallEnded
  rw [htx]
  refine ⟨b, rfl, hbook, hcall, hws, hstat, hcust, ⟨evs, ?_⟩⟩
  show st'.trace ++ [Ev.txnCommit] = _
  rw [htr]
  simp [List.append_assoc]

/-- C2: a Booking row is created if and only if the structured data has a
truthy booking-confirmed flag and a truthy (non-empty) customer name:
when the condition fails, bookings, customers and vehicles are untouched
whatever else happens (commit or rollback); when it holds and the
statements succeed, exactly one booking for the call is appended. -/
theorem booking_iff_confirmed_and_named (env : Env) (db : Db) (d : CallEndedData) :
    (bookingCond d.structuredData = false →
      (processCallEnded env db d).1.bookings = db.bookings ∧
      (processCallEnded env db d).1.customers = db.customers ∧
      (processCallEnded env db d).1.vehicles = db.vehicles)
    ∧ ((∀ n, env.failAt n = false) → bookingCond d.structuredData = true →
      ∃ b : BookingRow, b.call_id = d.callId ∧
        (processCallEnded env db d).1.bookings = db.bookings ++ [b]) := by
  constructor
  · intro hcond
    unfold processCallEnded
    cases htx : txnBody env d ⟨db, 0, [Ev.txnBegin]⟩ with
    | error es =>
      obtain ⟨e, st⟩ := es
      exact ⟨rfl, rfl, rfl⟩
    | ok st =>
      unfold txnBody at htx
      cases hq1 : txQuery env (Ev.updateCall d.callId) (updateCallRow env d)
          ⟨db, 0, [Ev.txnBegin]⟩ with
      | error es => rw [hq1] at htx; simp at htx
      | ok r1 =>
        rw [hq1] at htx
        obtain ⟨a1, st1⟩ := r1
        dsimp only at htx
        have h1 := txQuery_ok hq1
        rw [Prod.mk.injEq] at h1
        obtain ⟨-, h1s⟩ := h1
        cases hq2 : txQuery env (Ev.insertAnalysis d.callId)
            (insertAnalysisStmt d) st1 with
        | error es => rw [hq2] at htx; simp at htx
        | ok r2 =>
          rw [hq2] at htx
          obtain ⟨a2, st2⟩ := r2
          dsimp only at htx
          have h2 := txQuery_ok hq2
          rw [Prod.mk.injEq] at h2
          obtain ⟨-, h2s⟩ := h2
          rw [hcond] at htx
          simp at htx
          subst htx
          subst h2s
          subst h1s
          simp [insertAnalysisStmt, updateCallRow]
  · intro hf hcond
    obtain ⟨b, -, hbook, hcall, -, -, -, -⟩ :=
      processCallEnded_noFail_booking env hf db d hcond
    exact ⟨b, hcall, hbook⟩

/-- Structured data with booking not confirmed. -/
def sdNoBook : StructuredData :=
  ⟨some "Alice", some "555-0100", none, none, none, none, some "squeak", none,
   none, .null, .null, some false⟩

/-- A call-ended event whose booking condition fails. -/
def dataNoBook : CallEndedData :=
  ⟨1, 7, some 60, 0, none, none, none, sdNoBook, none⟩

/-- Witness for `booking_iff_confirmed_and_named`. -/
theorem booking_iff_confirmed_and_named_witness :
    (processCallEnded envOk dbBase dataNoBook).1.bookings = dbBase.bookings ∧
    ∃ b : BookingRow, b.call_id = dataBase.callId ∧
      (processCallEnded envOk dbBase dataBase).1.bookings = dbBase.bookings ++ [b] :=
  ⟨((booking_iff_confirmed_and_named envOk dbBase dataNoBook).1 (by decide)).1,
   (booking_iff_confirmed_and_named envOk dbBase dataBase).2 (fun n => rfl) (by decide)⟩

/-- C9: when the outbound notification POST fails, the failure is
swallowed: the call-ended run still commits, the swallowed failure is
visible in the trace, and the booking row exists in the final database. -/
theorem notify_failure_isolated (env : Env) (db : Db) (d : CallEndedData)
    (hf : ∀ n, env.failAt n = false) (hnf : env.notifyFails = true)
    (hcond : bookingCond d.structuredData = true) :
    (processCallEnded env db d).2.2 = none ∧
    Ev.notifyFailedSwallowed ∈ (processCallEnded env db d).2.1 ∧
    ∃ b : BookingRow, b.call_id = d.callId ∧
      (processCallEnded env db d).1.bookings = db.bookings ++ [b] := by
  obtain ⟨b, herr, hbook, hcall, -, -, -, evs, htr⟩ :=
    processCallEnded_noFail_booking env hf db d hcond
  refine ⟨herr, ?_, b, hcall, hbook⟩
  rw [htr, hnf]
  simp

/-- An environment in which every statement succeeds but the notification
POST fails. -/
def envNotifyFail : Env := ⟨⟨2026, 10, 11⟩, 500, fun _ => false, true⟩

/-- Witness for `notify_failure_isolated`. -/
theorem notify_failure_isolated_witness :
    (processCallEnded envNotifyFail dbBase dataBase).2.2 = none ∧
    Ev.notifyFailedSwallowed ∈ (processCallEnded envNotifyFail dbBase dataBase).2.1 ∧
    ∃ b : BookingRow, b.call_id = dataBase.callId ∧
      (processCallEnded envNotifyFail dbBase dataBase).1.bookings =
        dbBase.bookings ++ [b] :=
  notify_failure_isolated envNotifyFail dbBase dataBase (fun n => rfl) rfl (by decide)

/-- C3 counterexample: in a successful booking-creating run the
notification POST appears at trace position 7, strictly before the COMMIT
at position 8 — the POST is issued inside the transaction, not after it
commits, so it executes before the Call update, CallAnalysis insert and
Booking insert are committed. -/
theorem notify_before_commit_cex :
    (processCallEnded envOk dbBase dataBase).2.1.get? 7 =
      some (Ev.notifyPost 101 7 100 (some "alice@example.com")
        (⟨2026, 10, 12⟩, 10, 0)) ∧
    (processCallEnded envOk dbBase dataBase).2.1.get? 8 = some Ev.txnCommit ∧
    (7 : Nat) < 8 ∧
    (processCallEnded envOk dbBase dataBase).2.2 = none := by
  refine ⟨?_, ?_, ?_, ?_⟩ <;> decide

/-- C3 (amended): the notification POST (booking id, workshop id, customer
id, customer email, scheduled time) is issued inside the call-ended
transaction — after the Booking insert and the CallAnalysis
booking-created update execute, but before COMMIT; it is outside the
transaction only in that its failure cannot abort it. -/
theorem notify_inside_txn_before_commit (env : Env) (db : Db) (d : CallEndedData)
    (hf : ∀ n, env.failAt n = false) (hcond : bookingCond d.structuredData = true) :
    ∃ b : BookingRow, ∃ front : List Ev,
      (processCallEnded env db d).2.2 = none ∧
      (processCallEnded env db d).2.1 =
        front ++
        [Ev.notifyPost b.id d.workshopId b.customer_id
           d.structuredData.customer_email
           (parseDateTime env.today d.structuredData.preferred_date
             d.structuredData.preferred_time)] ++
        (if env.notifyFails then [Ev.notifyFailedSwallowed] else []) ++
        [Ev.txnCommit] ∧
      Ev.insertBooking b.id ∈ front ∧ Ev.updateAnalysis d.callId ∈ front := by
  obtain ⟨b, herr, -, -, -, -, -, evs, htr⟩ :=
    processCallEnded_noFail_booking env hf db d hcond
  refine ⟨b,
    [Ev.txnBegin, Ev.updateCall d.callId, Ev.insertAnalysis d.callId,
     Ev.selectCustomer d.workshopId d.structuredData.customer_phone] ++ evs ++
    [Ev.insertBooking b.id, Ev.updateAnalysis d.callId],
    herr, ?_, ?_, ?_⟩
  · rw [htr]
    simp [List.append_assoc]
  · simp
  · simp

/-- Witness for `notify_inside_txn_before_commit`. -/
theorem notify_inside_txn_before_commit_witness :
    ∃ b : BookingRow, ∃ front : List Ev,
      (processCallEnded envOk dbBase dataBase).2.2 = none ∧
      (processCallEnded envOk dbBase dataBase).2.1 =
        front ++
        [Ev.notifyPost b.id dataBase.workshopId b.customer_id
           dataBase.structuredData.customer_email
           (parseDateTime envOk.today dataBase.structuredData.preferred_date
             dataBase.structuredData.preferred_time)] ++
        (if envOk.notifyFails then [Ev.notifyFailedSwallowed] else []) ++
        [Ev.txnCommit] ∧
      Ev.insertBooking b.id ∈ front ∧ Ev.updateAnalysis dataBase.callId ∈ front :=
  notify_inside_txn_before_commit envOk dbBase dataBase (fun n => rfl) (by decide)

/-- Structured data confirming a booking with a customer name but no
phone (the extraction schema does not force the AI to provide one at
booking time; the inserted SQL value is NULL). -/
def sdNoPhone : StructuredData :=
  ⟨some "Alice", none, none, none, none, none, some "engine noise", none, none,
   .null, .null, some true⟩

/-- A database holding two in-progress calls of workshop 7. -/
def dbTwoCalls : Db :=
  ⟨100, [⟨1, "in-progress", none, none, 0, none, none⟩,
         ⟨2, "in-progress", none, none, 0, none, none⟩], [], [], [], []⟩

/-- First call-ended event with no customer phone. -/
def dataNoPhoneA : CallEndedData :=
  ⟨1, 7, some 60, 0, none, none, none, sdNoPhone, none⟩

/-- Second call-ended event, same workshop, same (absent) phone. -/
def dataNoPhoneB : CallEndedData :=
  ⟨2, 7, some 45, 0, none, none, none, sdNoPhone, none⟩

/-- C8 counterexample: two successful booking-creating call-ended events
for the same workshop and the same phone value (NULL) insert two Customer
rows — the SQL lookup `phone = NULL` never matches, so the second event
does not reuse the first customer's id. -/
theorem customer_dedup_null_phone_cex :
    (processCallEnded envOk (processCallEnded envOk dbTwoCalls dataNoPhoneA).1
        dataNoPhoneB).1.customers.map (fun c => (c.workshop_id, c.phone)) =
      [(7, none), (7, none)] ∧
    (processCallEnded envOk dbTwoCalls dataNoPhoneA).2.2 = none ∧
    (processCallEnded envOk (processCallEnded envOk dbTwoCalls dataNoPhoneA).1
        dataNoPhoneB).2.2 = none := by
  refine ⟨?_, ?_, ?_⟩ <;> decide

/-- C8 (amended): for every workshop and every present (non-NULL) phone
value, two successful booking-creating call-ended events for the same
(workshop, phone) pair yield exactly one Customer row, the second
invocation reusing the existing customer's id; when the phone is NULL the
lookup matches nothing and each event inserts a fresh row. -/
theorem customer_dedup_nonnull (env : Env) (db : Db) (d1 d2 : CallEndedData)
    (p : String)
    (hf : ∀ n, env.failAt n = false)
    (hw : d2.workshopId = d1.workshopId)
    (hp1 : d1.structuredData.customer_phone = some p)
    (hp2 : d2.structuredData.customer_phone = some p)
    (hc1 : bookingCond d1.structuredData = true)
    (hc2 : bookingCond d2.structuredData = true)
    (hinit : db.customers.filter (custMatch d1.workshopId (some p)) = []) :
    ∃ c1 : CustomerRow,
      (processCallEnded env db d1).1.customers = db.customers ++ [c1] ∧
      (processCallEnded env (processCallEnded env db d1).1 d2).1.customers =
        db.customers ++ [c1] ∧
      ((processCallEnded env (processCallEnded env db d1).1 d2).1.customers.filter
        (custMatch d1.workshopId (some p))).length = 1 ∧
      ∃ b2 : BookingRow,
        (processCallEnded env (processCallEnded env db d1).1 d2).1.bookings =
          (processCallEnded env db d1).1.bookings ++ [b2] ∧
        b2.customer_id = c1.id := by
  obtain ⟨b1, herr1, hbook1, -, -, -, hcust1, -⟩ :=
    processCallEnded_noFail_booking env hf db d1 hc1
  rw [hp1] at hcust1
  rcases hcust1 with ⟨-, hcs1, -⟩ | ⟨c, cs, hcseq, -, -⟩
  swap
  · rw [hinit] at hcseq
    exact absurd hcseq (by simp)
  have hmatch : custMatch d1.workshopId (some p)
      ⟨db.nextId, d1.workshopId, d1.structuredData.customer_name, some p,
       d1.structuredData.customer_email⟩ = true := by
    simp [custMatch, sqlEqOpt]
  have hfilter : (db.customers ++
      [(⟨db.nextId, d1.workshopId, d1.structuredData.customer_name, some p,
        d1.structuredData.customer_email⟩ : CustomerRow)]).filter
        (custMatch d1.workshopId (some p)) =
      [⟨db.nextId, d1.workshopId, d1.structuredData.customer_name, some p,
        d1.structuredData.customer_email⟩] := by
    rw [List.filter_append, hinit, List.filter_cons, if_pos hmatch]
    simp
  obtain ⟨b2, herr2, hbook2, -, -, -, hcust2, -⟩ :=
    processCallEnded_noFail_booking env hf (processCallEnded env db d1).1 d2 hc2
  rw [hp2, hw, hcs1] at hcust2
  rcases hcust2 with ⟨hne, -, -⟩ | ⟨c2, cs2, hcseq2, hcs2, hbc2⟩
  · rw [hfilter] at hne
    exact absurd hne (by simp)
  · rw [hfilter] at hcseq2
    have hc2eq : (⟨db.nextId, d1.workshopId, d1.structuredData.customer_name,
        some p, d1.structuredData.customer_email⟩ : CustomerRow) = c2 := by
      injection hcseq2
    refine ⟨⟨db.nextId, d1.workshopId, d1.structuredData.customer_name, some p,
      d1.structuredData.customer_email⟩, hcs1, ?_, ?_, b2, hbook2, ?_⟩
    · rw [hcs2]
    · rw [hcs2, hfilter]
      rfl
    · rw [hbc2, ← hc2eq]

/-- A second call-ended event for call 2 with the same structured data
(same workshop, same phone) as `dataBase`. -/
def dataBase2 : CallEndedData :=
  ⟨2, 7, some 45, 0, none, none, none, sdBase, none⟩

/-- Witness for `customer_dedup_nonnull`. -/
theorem customer_dedup_nonnull_witness :
    ∃ c1 : CustomerRow,
      (processCallEnded envOk dbTwoCalls dataBase).1.customers =
        dbTwoCalls.customers ++ [c1] ∧
      (processCallEnded envOk (processCallEnded envOk dbTwoCalls dataBase).1
          dataBase2).1.customers = dbTwoCalls.customers ++ [c1] ∧
      ((processCallEnded envOk (processCallEnded envOk dbTwoCalls dataBase).1
          dataBase2).1.customers.filter
            (custMatch dataBase.workshopId (some "555-0100"))).length = 1 ∧
      ∃ b2 : BookingRow,
        (processCallEnded envOk (processCallEnded envOk dbTwoCalls dataBase).1
            dataBase2).1.bookings =
          (processCallEnded envOk dbTwoCalls dataBase).1.bookings ++ [b2] ∧
        b2.customer_id = c1.id :=
  customer_dedup_nonnull envOk dbTwoCalls dataBase dataBase2 "555-0100"
    (fun n => rfl) rfl rfl rfl (by decide) (by decide) (by decide)
